import Mathlib

/-!
Shallow embedding of tie-domain-age-analyzer (src/main.py).

The program has four relevant functions:
  - is_valid_domain: rejects non-strings, the empty string, and strings
    containing a space character.
  - get_domain_age: WHOIS lookup, resolves a creation_date field that may be
    absent, a single timestamp, or a list of timestamps, and computes
    (datetime.now() - creation_date).days; every exception collapses to None.
  - check_wayback_machine: HTTP GET against the Wayback availability API,
    raise_for_status on 4xx/5xx, JSON decoding, then key navigation to
    archived_snapshots.closest.url; every exception collapses to None.
  - main: validate, exit(1) on failure, otherwise run both queries and print
    one result line for each, always exiting with status 0.

External effects (the WHOIS lookup result, the frozen clock, the HTTP
response) are passed in as explicit arguments; machine-level datetimes are
modelled as integer seconds tagged naive/aware, since Python raises TypeError
when subtracting an aware datetime from the naive datetime.now().
-/

/-- Model of a Python datetime: aware is true for timezone-aware values,
sec is the timestamp in seconds. Subtracting an aware datetime from a naive
one raises TypeError in Python. -/
structure PyDatetime where
  aware : Bool
  sec : Int
deriving DecidableEq, Repr

/-- An element of a creation_date list as returned by the whois library:
either None or a datetime. -/
inductive CDElem where
| null
| dt (d : PyDatetime)
deriving DecidableEq, Repr

/-- The creation_date field of a WHOIS record: None/absent (falsy), a single
datetime, or a list of elements (falsy when empty). -/
inductive CDVal where
| null
| dt (d : PyDatetime)
| listV (l : List CDElem)
deriving DecidableEq, Repr

/-- Python truthiness of the creation_date value. -/
def CDVal.truthy : CDVal → Bool
| .null => false
| .dt _ => true
| .listV l => !l.isEmpty

/-- The element the code selects: creation_date[0] if it is a list, else
creation_date itself. The default on an empty list is unreachable because
the code only indexes after a truthiness check. -/
def CDVal.first : CDVal → CDElem
| .null => .null
| .dt d => .dt d
| .listV l => l.headD .null

/-- View of a list element as a standalone creation_date value. -/
def CDElem.asValue : CDElem → CDVal
| .null => .null
| .dt d => .dt d

/-- Python truthiness of a list element. -/
def CDElem.truthy : CDElem → Bool
| .null => false
| .dt _ => true

/-- A WHOIS record as used by the code: only the creation_date field. -/
structure WhoisRecord where
  creation_date : CDVal
deriving DecidableEq, Repr

/-- Failures of whois.whois: the parser-specific PywhoisError or any other
unexpected exception. Both except branches return None. -/
inductive WhoisError where
| pywhois
| other
deriving DecidableEq, Repr

/-- Python timedelta.days: floor division of the difference in seconds by
86400 (rounds toward negative infinity). -/
def timedeltaDays (diffSec : Int) : Int :=
  Int.fdiv diffSec 86400

/-- Embedding of get_domain_age (src/main.py lines 22-52). The WHOIS lookup
outcome and the frozen clock (datetime.now() in naive seconds) are explicit
arguments. Returns the age in days or none; the naive-minus-aware TypeError
and both except branches all produce none. -/
def get_domain_age (nowSec : Int) (lookup : Except WhoisError WhoisRecord) :
    Option Int :=
  match lookup with
  | .error _ => none
  | .ok info =>
    if info.creation_date.truthy then
      match info.creation_date.first with
      | .null => none
      | .dt d =>
        if d.aware then none
        else some (timedeltaDays (nowSec - d.sec))
    else none

/-- JSON values, as decoded by response.json(). -/
inductive Json where
| null
| boolean (b : Bool)
| num (n : Int)
| str (s : String)
| arr (elems : List Json)
| obj (fields : List (String × Json))

/-- Python truthiness of a JSON value. -/
def Json.truthy : Json → Bool
| .null => false
| .boolean b => b
| .num n => n != 0
| .str s => s != ""
| .arr l => !l.isEmpty
| .obj f => !f.isEmpty

/-- First binding of a key in a decoded JSON object. -/
def jsonLookup (fields : List (String × Json)) (key : String) : Option Json :=
  (fields.find? (fun p => p.1 == key)).map (fun p => p.2)

/-- Python membership test key in data. Defined for dicts (key lookup),
strings (substring test) and lists (element equality); raises TypeError
otherwise. -/
def pyIn (key : String) : Json → Except Unit Bool
| .obj fields => .ok (jsonLookup fields key).isSome
| .str s => .ok (decide ((s.splitOn key).length > 1))
| .arr elems => .ok (elems.any (fun e =>
    match e with
    | .str t => t == key
    | _ => false))
| _ => .error ()

/-- Python subscript data[key] with a string key: succeeds only on a dict
holding the key; raises KeyError or TypeError otherwise. -/
def pyGet (key : String) : Json → Except Unit Json
| .obj fields =>
  match jsonLookup fields key with
  | some v => .ok v
  | none => .error ()
| _ => .error ()

/-- The body of check_wayback_machine after JSON decoding (src/main.py lines
70-80): the condition data and key-in-data and data[key], then the closest
lookup and the url subscript. An error value stands for a raised exception,
caught by the surrounding except clauses. -/
def waybackExtract (data : Json) : Except Unit (Option Json) :=
  if data.truthy then
    match pyIn "archived_snapshots" data with
    | .error e => .error e
    | .ok hasSnaps =>
      if hasSnaps then
        match pyGet "archived_snapshots" data with
        | .error e => .error e
        | .ok snaps =>
          if snaps.truthy then
            match pyIn "closest" snaps with
            | .error e => .error e
            | .ok hasClosest =>
              if hasClosest then
                match pyGet "closest" snaps with
                | .error e => .error e
                | .ok closest =>
                  match pyGet "url" closest with
                  | .error e => .error e
                  | .ok url => .ok (some url)
              else .ok none
          else .ok none
      else .ok none
  else .ok none

/-- Outcome of response.json(): a decoded value or a decoding failure. -/
inductive JsonBody where
| parseFail
| parsed (j : Json)

/-- Outcome of requests.get: an outright request failure (connection error,
timeout, ...) or a response with a status code and a body. -/
inductive WaybackHttp where
| requestError
| response (status : Nat) (body : JsonBody)

/-- Embedding of check_wayback_machine (src/main.py lines 54-86). The HTTP
outcome is an explicit argument. raise_for_status raises for status codes in
[400, 600); every exception collapses to none. -/
def check_wayback_machine (http : WaybackHttp) : Option Json :=
  match http with
  | .requestError => none
  | .response status body =>
    if 400 ≤ status ∧ status ≤ 599 then none
    else
      match body with
      | .parseFail => none
      | .parsed data =>
        match waybackExtract data with
        | .ok r => r
        | .error _ => none

/-- The command-line domain argument as seen by is_valid_domain: a string or
some non-string value. -/
inductive DomainArg where
| str (s : String)
| nonString
deriving DecidableEq, Repr

/-- Embedding of is_valid_domain (src/main.py lines 88-112): rejects
non-strings, the empty string, and any string containing a space. -/
def is_valid_domain : DomainArg → Bool
| .nonString => false
| .str s =>
  if s = "" then false
  else if s.data.contains ' ' then false
  else true

/-- One line printed to standard output by main. -/
inductive OutLine where
| ageLine (domain : String) (days : Int)
| ageUnknown (domain : String)
| waybackLine (domain : String) (url : Json)
| waybackNotFound (domain : String)

/-- Observable outcome of a run of main: the exit status, the printed lines,
and whether each network query was performed. -/
structure MainResult where
  exitCode : Nat
  output : List OutLine
  whoisQueried : Bool
  waybackQueried : Bool

/-- The age line main prints: the numeric line when domain_age is not None,
otherwise the could-not-determine line (src/main.py lines 131-135). -/
def ageReport (domain : String) (age : Option Int) : OutLine :=
  match age with
  | some a => .ageLine domain a
  | none => .ageUnknown domain

/-- The archive line main prints: the URL line when the result is truthy,
otherwise the not-found line (src/main.py lines 137-141). -/
def waybackReport (domain : String) (u : Option Json) : OutLine :=
  match u with
  | some j => if j.truthy then .waybackLine domain j else .waybackNotFound domain
  | none => .waybackNotFound domain

/-- The underlying string of the domain argument (only used after validation,
which guarantees the argument is a string). -/
def DomainArg.text : DomainArg → String
| .str s => s
| .nonString => ""

/-- Embedding of main (src/main.py lines 115-141): validate, exit 1 on
failure with no queries; otherwise run the WHOIS query, print its line, run
the Wayback query, print its line, and exit 0. -/
def Analyzer.main (domain : DomainArg) (nowSec : Int)
    (whoisResult : Except WhoisError WhoisRecord) (http : WaybackHttp) :
    MainResult :=
  if is_valid_domain domain then
    { exitCode := 0
      output := [ageReport domain.text (get_domain_age nowSec whoisResult),
                 waybackReport domain.text (check_wayback_machine http)]
      whoisQueried := true
      waybackQueried := true }
  else
    { exitCode := 1
      output := []
      whoisQueried := false
      waybackQueried := false }

/-! Helper lemmas -/

/-- A successful object lookup forces the field list to be non-empty. -/
theorem jsonLookup_isEmpty_false {f : List (String × Json)} {k : String}
    {v : Json} (h : jsonLookup f k = some v) : f.isEmpty = false := by
  cases f with
  | nil => simp [jsonLookup] at h
  | cons a t => rfl

/-! Claims -/

/-- C1: every domain argument that fails validation is a non-string, the
empty string, or a string containing a space; on such input main exits with
non-zero status and performs neither the WHOIS nor the Wayback query. -/
theorem c1_invalid_domain_exits_without_queries (d : DomainArg) (nowSec : Int)
    (w : Except WhoisError WhoisRecord) (b : WaybackHttp)
    (h : is_valid_domain d = false) :
    (d = .nonString ∨ d = .str "" ∨
      ∃ s, d = .str s ∧ s.data.contains ' ' = true) ∧
    (Analyzer.main d nowSec w b).exitCode ≠ 0 ∧
    (Analyzer.main d nowSec w b).whoisQueried = false ∧
    (Analyzer.main d nowSec w b).waybackQueried = false := by
  refine ⟨?_, by simp [Analyzer.main, h], by simp [Analyzer.main, h],
    by simp [Analyzer.main, h]⟩
  cases d with
  | nonString => exact Or.inl rfl
  | str s =>
    by_cases hs : s = ""
    · exact Or.inr (Or.inl (by rw [hs]))
    · by_cases hc : s.data.contains ' ' = true
      · exact Or.inr (Or.inr ⟨s, rfl, hc⟩)
      · simp [is_valid_domain, hs] at h
        exact absurd h (by simpa using hc)

/-- Witness for C1 at the concrete invalid domain "a b". -/
theorem c1_witness :
    is_valid_domain (DomainArg.str "a b") = false ∧
    (Analyzer.main (DomainArg.str "a b") 0 (Except.error WhoisError.pywhois)
      WaybackHttp.requestError).exitCode ≠ 0 ∧
    (Analyzer.main (DomainArg.str "a b") 0 (Except.error WhoisError.pywhois)
      WaybackHttp.requestError).whoisQueried = false := by
  have hv : is_valid_domain (DomainArg.str "a b") = false := by decide
  have h := c1_invalid_domain_exits_without_queries (DomainArg.str "a b") 0
    (Except.error WhoisError.pywhois) WaybackHttp.requestError hv
  exact ⟨hv, h.2.1, h.2.2.1⟩

/-- C2: for a single naive past creation timestamp T and the clock frozen at
nowSec, get_domain_age returns exactly the floor of (now - T) in days. -/
theorem c2_age_is_floor_days (nowSec : Int) (T : PyDatetime)
    (hn : T.aware = false) (_hpast : T.sec ≤ nowSec) :
    get_domain_age nowSec (Except.ok ⟨CDVal.dt T⟩) =
      some (Int.fdiv (nowSec - T.sec) 86400) := by
  simp [get_domain_age, CDVal.truthy, CDVal.first, timedeltaDays, hn]

/-- Witness for C2: creation at second 0, now at second 1000000 (past),
giving floor(1000000 / 86400) = 11 days. -/
theorem c2_witness :
    PyDatetime.aware ⟨false, 0⟩ = false ∧ (0 : Int) ≤ 1000000 ∧
    get_domain_age 1000000 (Except.ok ⟨CDVal.dt ⟨false, 0⟩⟩) = some 11 := by
  refine ⟨rfl, by decide, ?_⟩
  rw [c2_age_is_floor_days 1000000 ⟨false, 0⟩ rfl (by decide)]
  decide

/-- C3: when creation_date is a list, get_domain_age behaves exactly as if
the field were the first element alone, ignoring the rest; in particular a
null first element yields none. -/
theorem c3_list_uses_first_element :
    (∀ (nowSec : Int) (e : CDElem) (rest : List CDElem),
      get_domain_age nowSec (Except.ok ⟨CDVal.listV (e :: rest)⟩) =
        get_domain_age nowSec (Except.ok ⟨e.asValue⟩)) ∧
    (∀ (nowSec : Int) (rest : List CDElem),
      get_domain_age nowSec (Except.ok ⟨CDVal.listV (CDElem.null :: rest)⟩) =
        none) := by
  constructor
  · intro nowSec e rest
    cases e <;>
      simp [get_domain_age, CDVal.truthy, CDVal.first, CDElem.asValue]
  · intro nowSec rest
    simp [get_domain_age, CDVal.truthy, CDVal.first]

/-- C5: every WHOIS failure (parser-specific or unexpected) and every
missing creation date (None or empty list) collapse to the none result. -/
theorem c5_whois_failures_collapse_to_none :
    (∀ (nowSec : Int) (e : WhoisError),
      get_domain_age nowSec (Except.error e) = none) ∧
    (∀ (nowSec : Int),
      get_domain_age nowSec (Except.ok ⟨CDVal.null⟩) = none) ∧
    (∀ (nowSec : Int),
      get_domain_age nowSec (Except.ok ⟨CDVal.listV []⟩) = none) := by
  refine ⟨fun nowSec e => rfl, fun nowSec => rfl, fun nowSec => ?_⟩
  simp [get_domain_age, CDVal.truthy]

/-- C8: a timezone-aware creation date subtracted from the naive now raises,
and the absorbed failure makes get_domain_age return none. -/
theorem c8_aware_timestamp_yields_none (nowSec : Int) (d : PyDatetime)
    (h : d.aware = true) :
    get_domain_age nowSec (Except.ok ⟨CDVal.dt d⟩) = none := by
  simp [get_domain_age, CDVal.truthy, CDVal.first, h]

/-- Witness for C8 at the aware timestamp of second 0. -/
theorem c8_witness :
    PyDatetime.aware ⟨true, 0⟩ = true ∧
    get_domain_age 0 (Except.ok ⟨CDVal.dt ⟨true, 0⟩⟩) = none :=
  ⟨rfl, c8_aware_timestamp_yields_none 0 ⟨true, 0⟩ rfl⟩

/-- C4: for a 200 response with a JSON object body, check_wayback_machine
returns the value at archived_snapshots.closest.url exactly when the body
holds a non-empty archived_snapshots object with a closest key (and the url
field is there to return); when archived_snapshots is absent, is the empty
object, or lacks a closest key, it returns none. -/
theorem c4_wayback_url_extraction :
    (∀ (fields sfields cfields : List (String × Json)) (u : String),
      jsonLookup fields "archived_snapshots" = some (Json.obj sfields) →
      sfields ≠ [] →
      jsonLookup sfields "closest" = some (Json.obj cfields) →
      jsonLookup cfields "url" = some (Json.str u) →
      check_wayback_machine (.response 200 (.parsed (Json.obj fields))) =
        some (Json.str u)) ∧
    (∀ fields : List (String × Json),
      jsonLookup fields "archived_snapshots" = none →
      check_wayback_machine (.response 200 (.parsed (Json.obj fields))) =
        none) ∧
    (∀ fields : List (String × Json),
      jsonLookup fields "archived_snapshots" = some (Json.obj []) →
      check_wayback_machine (.response 200 (.parsed (Json.obj fields))) =
        none) ∧
    (∀ (fields sfields : List (String × Json)),
      jsonLookup fields "archived_snapshots" = some (Json.obj sfields) →
      jsonLookup sfields "closest" = none →
      check_wayback_machine (.response 200 (.parsed (Json.obj fields))) =
        none) := by
  refine ⟨?_, ?_, ?_, ?_⟩
  · intro fields sfields cfields u h1 hne h2 h3
    have hf := jsonLookup_isEmpty_false h1
    have hs : sfields.isEmpty = false := by
      cases sfields with
      | nil => exact absurd rfl hne
      | cons a t => rfl
    simp [check_wayback_machine, waybackExtract, Json.truthy, pyIn, pyGet,
      h1, h2, h3, hf, hs]
  · intro fields h1
    cases fields with
    | nil => rfl
    | cons a t =>
      simp [check_wayback_machine, waybackExtract, Json.truthy, pyIn, h1]
  · intro fields h1
    have hf := jsonLookup_isEmpty_false h1
    simp [check_wayback_machine, waybackExtract, Json.truthy, pyIn, pyGet,
      h1, hf]
  · intro fields sfields h1 h2
    have hf := jsonLookup_isEmpty_false h1
    cases sfields with
    | nil =>
      simp [check_wayback_machine, waybackExtract, Json.truthy, pyIn, pyGet,
        h1, hf]
    | cons a t =>
      simp [check_wayback_machine, waybackExtract, Json.truthy, pyIn, pyGet,
        h1, h2, hf]

/-- Witness for C4 at the spec's mocked response, returning the archived
URL. -/
theorem c4_witness :
    jsonLookup [("archived_snapshots", Json.obj [("closest",
        Json.obj [("url",
          Json.str "http://web.archive.org/web/20010101000000/example.com")])])]
        "archived_snapshots" =
      some (Json.obj [("closest", Json.obj [("url",
        Json.str "http://web.archive.org/web/20010101000000/example.com")])]) ∧
    check_wayback_machine (.response 200 (.parsed (Json.obj
        [("archived_snapshots", Json.obj [("closest",
          Json.obj [("url",
            Json.str "http://web.archive.org/web/20010101000000/example.com")])])]))) =
      some (Json.str "http://web.archive.org/web/20010101000000/example.com") := by
  refine ⟨rfl, ?_⟩
  exact c4_wayback_url_extraction.1
    [("archived_snapshots", Json.obj [("closest", Json.obj [("url",
      Json.str "http://web.archive.org/web/20010101000000/example.com")])])]
    [("closest", Json.obj [("url",
      Json.str "http://web.archive.org/web/20010101000000/example.com")])]
    [("url", Json.str "http://web.archive.org/web/20010101000000/example.com")]
    "http://web.archive.org/web/20010101000000/example.com"
    rfl (List.cons_ne_nil _ _) rfl rfl

/-- C6: a request failure, a 4xx or 5xx status, and a JSON decoding failure
all make check_wayback_machine return none. -/
theorem c6_http_and_parse_failures_yield_none :
    check_wayback_machine .requestError = none ∧
    (∀ (status : Nat) (body : JsonBody), 400 ≤ status → status ≤ 599 →
      check_wayback_machine (.response status body) = none) ∧
    (∀ status : Nat,
      check_wayback_machine (.response status .parseFail) = none) := by
  refine ⟨rfl, ?_, ?_⟩
  · intro status body ha hb
    simp [check_wayback_machine, ha, hb]
  · intro status
    simp only [check_wayback_machine]
    split <;> rfl

/-- Witness for C6 at an HTTP 500 response. -/
theorem c6_witness :
    400 ≤ 500 ∧ 500 ≤ 599 ∧
    check_wayback_machine (.response 500 (.parsed (Json.obj []))) = none :=
  ⟨by decide, by decide,
    c6_http_and_parse_failures_yield_none.2.1 500 (.parsed (Json.obj []))
      (by decide) (by decide)⟩

/-- C9: a closest object lacking a url key makes check_wayback_machine
return none (the KeyError is absorbed) rather than raise. -/
theorem c9_missing_url_key_yields_none
    (fields sfields cfields : List (String × Json))
    (h1 : jsonLookup fields "archived_snapshots" = some (Json.obj sfields))
    (h2 : jsonLookup sfields "closest" = some (Json.obj cfields))
    (h3 : jsonLookup cfields "url" = none) :
    check_wayback_machine (.response 200 (.parsed (Json.obj fields))) =
      none := by
  have hf := jsonLookup_isEmpty_false h1
  have hs := jsonLookup_isEmpty_false h2
  simp [check_wayback_machine, waybackExtract, Json.truthy, pyIn, pyGet,
    h1, h2, h3, hf, hs]

/-- Witness for C9: closest is present but holds no url field. -/
theorem c9_witness :
    jsonLookup [("archived_snapshots", Json.obj [("closest", Json.obj [])])]
        "archived_snapshots" = some (Json.obj [("closest", Json.obj [])]) ∧
    jsonLookup [("closest", Json.obj [])] "closest" = some (Json.obj []) ∧
    jsonLookup ([] : List (String × Json)) "url" = none ∧
    check_wayback_machine (.response 200 (.parsed (Json.obj
        [("archived_snapshots", Json.obj [("closest", Json.obj [])])]))) =
      none :=
  ⟨rfl, rfl, rfl,
    c9_missing_url_key_yields_none
      [("archived_snapshots", Json.obj [("closest", Json.obj [])])]
      [("closest", Json.obj [])] [] rfl rfl rfl⟩

/-- C7: on any valid domain, whatever the outcome of either query, main runs
both queries, prints exactly one line for each (the first determined solely
by the WHOIS outcome, the second solely by the Wayback outcome), and exits
with status 0. -/
theorem c7_valid_domain_runs_both_queries_and_exits_zero (d : DomainArg)
    (nowSec : Int) (w : Except WhoisError WhoisRecord) (b : WaybackHttp)
    (h : is_valid_domain d = true) :
    (Analyzer.main d nowSec w b).exitCode = 0 ∧
    (Analyzer.main d nowSec w b).whoisQueried = true ∧
    (Analyzer.main d nowSec w b).waybackQueried = true ∧
    (Analyzer.main d nowSec w b).output =
      [ageReport d.text (get_domain_age nowSec w),
       waybackReport d.text (check_wayback_machine b)] := by
  simp [Analyzer.main, h]

/-- Witness for C7: both queries fail outright, yet main prints both result
lines and exits 0. -/
theorem c7_witness :
    is_valid_domain (DomainArg.str "example.com") = true ∧
    (Analyzer.main (DomainArg.str "example.com") 0
      (Except.error WhoisError.pywhois) WaybackHttp.requestError).exitCode
      = 0 ∧
    (Analyzer.main (DomainArg.str "example.com") 0
      (Except.error WhoisError.pywhois) WaybackHttp.requestError).output =
      [OutLine.ageUnknown "example.com",
       OutLine.waybackNotFound "example.com"] := by
  have hv : is_valid_domain (DomainArg.str "example.com") = true := by decide
  have h := c7_valid_domain_runs_both_queries_and_exits_zero
    (DomainArg.str "example.com") 0 (Except.error WhoisError.pywhois)
    WaybackHttp.requestError hv
  exact ⟨hv, h.1, by rw [h.2.2.2]; rfl⟩

/-- C10: a naive creation date strictly in the future yields a negative age:
get_domain_age returns it unclamped, and main prints it on the age line. -/
theorem c10_future_creation_gives_negative_age (nowSec : Int)
    (T : PyDatetime) (s : String) (b : WaybackHttp)
    (hn : T.aware = false) (hf : nowSec < T.sec)
    (hd : is_valid_domain (.str s) = true) :
    get_domain_age nowSec (Except.ok ⟨CDVal.dt T⟩) =
      some (Int.fdiv (nowSec - T.sec) 86400) ∧
    Int.fdiv (nowSec - T.sec) 86400 < 0 ∧
    (Analyzer.main (.str s) nowSec (Except.ok ⟨CDVal.dt T⟩) b).output.head? =
      some (OutLine.ageLine s (Int.fdiv (nowSec - T.sec) 86400)) := by
  have hage : get_domain_age nowSec (Except.ok ⟨CDVal.dt T⟩) =
      some (Int.fdiv (nowSec - T.sec) 86400) := by
    simp [get_domain_age, CDVal.truthy, CDVal.first, timedeltaDays, hn]
  have hneg : Int.fdiv (nowSec - T.sec) 86400 < 0 := by
    rw [Int.fdiv_eq_ediv _ (by norm_num)]
    exact Int.ediv_neg' (by omega) (by norm_num)
  refine ⟨hage, hneg, ?_⟩
  simp [Analyzer.main, hd, hage, ageReport, DomainArg.text]

/-- Witness for C10: creation one day after now gives age -1 and main prints
it. -/
theorem c10_witness :
    PyDatetime.aware ⟨false, 86400⟩ = false ∧ (0 : Int) < 86400 ∧
    is_valid_domain (DomainArg.str "x") = true ∧
    get_domain_age 0 (Except.ok ⟨CDVal.dt ⟨false, 86400⟩⟩) = some (-1) ∧
    (Analyzer.main (DomainArg.str "x") 0
      (Except.ok ⟨CDVal.dt ⟨false, 86400⟩⟩)
      WaybackHttp.requestError).output.head? =
      some (OutLine.ageLine "x" (-1)) := by
  have h := c10_future_creation_gives_negative_age 0 ⟨false, 86400⟩ "x"
    WaybackHttp.requestError rfl (by decide) (by decide)
  have hval : Int.fdiv ((0 : Int) - 86400) 86400 = -1 := by decide
  refine ⟨rfl, by decide, by decide, ?_, ?_⟩
  · rw [h.1, hval]
  · rw [h.2.2, hval]
